import Mathlib

set_option maxRecDepth 100000

/-!
Verification development for the provably-fair audit engine
(`server/src/lib/provablyFair.ts`, `server/src/lib/hashUtils.ts`,
`server/src/api/verify.ts`).

The JavaScript code is shallowly embedded as follows:
* JS strings become Lean `String`; the byte view used by hashing is the
  UTF-8 encoding, computed by `strBytes`.
* The Node call `createHash("sha256")....digest("hex")` is embedded as a full
  executable SHA-256 over byte lists, producing the lowercase hex string.
* JS numbers in the derivation pipeline are embedded as exact rationals
  `ℚ`; `Math.floor` is `Int.floor`, ECMAScript `Math.round` (half towards
  positive infinity) is `jsRound`, and `Number.EPSILON` is `2 ^ (-52)`.
* `string | undefined` parameters become `Option String`; the JS
  truthiness test `if (s)` on such a value is false exactly on `none`
  and `some ""`.
-/

namespace DoubleCheck

/-! ### SHA-256 over byte lists (model of Node crypto, hex digest) -/

/-- Truncate to a 32-bit word. -/
def mod32 (n : Nat) : Nat := n % 4294967296

/-- Right rotation of a 32-bit word. -/
def rotr (n x : Nat) : Nat := mod32 ((x >>> n) ||| (x <<< (32 - n)))

/-- SHA-256 Ch function. -/
def sChoose (x y z : Nat) : Nat := (x &&& y) ^^^ ((x ^^^ 4294967295) &&& z)

/-- SHA-256 Maj function. -/
def sMajor (x y z : Nat) : Nat := (x &&& y) ^^^ (x &&& z) ^^^ (y &&& z)

/-- SHA-256 big sigma 0. -/
def bSig0 (x : Nat) : Nat := rotr 2 x ^^^ rotr 13 x ^^^ rotr 22 x

/-- SHA-256 big sigma 1. -/
def bSig1 (x : Nat) : Nat := rotr 6 x ^^^ rotr 11 x ^^^ rotr 25 x

/-- SHA-256 small sigma 0. -/
def sSig0 (x : Nat) : Nat := rotr 7 x ^^^ rotr 18 x ^^^ (x >>> 3)

/-- SHA-256 small sigma 1. -/
def sSig1 (x : Nat) : Nat := rotr 17 x ^^^ rotr 19 x ^^^ (x >>> 10)

/-- The 64 SHA-256 round constants. -/
def roundK : List Nat :=
  [1116352408, 1899447441, 3049323471, 3921009573,
   961987163, 1508970993, 2453635748, 2870763221,
   3624381080, 310598401, 607225278, 1426881987,
   1925078388, 2162078206, 2614888103, 3248222580,
   3835390401, 4022224774, 264347078, 604807628,
   770255983, 1249150122, 1555081692, 1996064986,
   2554220882, 2821834349, 2952996808, 3210313671,
   3336571891, 3584528711, 113926993, 338241895,
   666307205, 773529912, 1294757372, 1396182291,
   1695183700, 1986661051, 2177026350, 2456956037,
   2730485921, 2820302411, 3259730800, 3345764771,
   3516065817, 3600352804, 4094571909, 275423344,
   430227734, 506948616, 659060556, 883997877,
   958139571, 1322822218, 1537002063, 1747873779,
   1955562222, 2024104815, 2227730452, 2361852424,
   2428436474, 2756734187, 3204031479, 3329325298]

/-- State of the compression function: eight 32-bit words. -/
abbrev Hash8 := Nat × Nat × Nat × Nat × Nat × Nat × Nat × Nat

/-- The SHA-256 initial hash value. -/
def initH : Hash8 :=
  (1779033703, 3144134277, 1013904242, 2773480762,
   1359893119, 2600822924, 528734635, 1541459225)

/-- First 16 schedule words (big endian) from a 64-byte block. -/
def words16 (block : List Nat) : List Nat :=
  (List.range 16).map fun i =>
    block.getD (4 * i) 0 * 16777216 + block.getD (4 * i + 1) 0 * 65536 +
      block.getD (4 * i + 2) 0 * 256 + block.getD (4 * i + 3) 0

/-- One extension step of the message schedule. -/
def extendStep (w : List Nat) : List Nat :=
  let n := w.length
  w ++ [mod32 (sSig1 (w.getD (n - 2) 0) + w.getD (n - 7) 0 +
    sSig0 (w.getD (n - 15) 0) + w.getD (n - 16) 0)]

/-- The full 64-word message schedule of a block. -/
def schedule (block : List Nat) : List Nat :=
  (List.range 48).foldl (fun w _ => extendStep w) (words16 block)

/-- One compression round; the argument is the combined value K i + W i. -/
def sround (s : Hash8) (kw : Nat) : Hash8 :=
  match s with
  | (a, b, c, d, e, f, g, h) =>
    let t1 := mod32 (h + bSig1 e + sChoose e f g + kw)
    let t2 := mod32 (bSig0 a + sMajor a b c)
    (mod32 (t1 + t2), a, b, c, mod32 (d + t1), e, f, g)

/-- Compress one 64-byte block into the running state. -/
def compressBlock (h0 : Hash8) (block : List Nat) : Hash8 :=
  let kws := List.zipWith (fun k w => mod32 (k + w)) roundK (schedule block)
  match h0, kws.foldl sround h0 with
  | (a0, b0, c0, d0, e0, f0, g0, hh0), (a, b, c, d, e, f, g, h) =>
    (mod32 (a0 + a), mod32 (b0 + b), mod32 (c0 + c), mod32 (d0 + d),
     mod32 (e0 + e), mod32 (f0 + f), mod32 (g0 + g), mod32 (hh0 + h))

/-- Big-endian 8-byte encoding of the message bit length. -/
def lenBytes (n : Nat) : List Nat :=
  [(n >>> 56) % 256, (n >>> 48) % 256, (n >>> 40) % 256, (n >>> 32) % 256,
   (n >>> 24) % 256, (n >>> 16) % 256, (n >>> 8) % 256, n % 256]

/-- SHA-256 padding: a 0x80 byte, zero bytes to 56 mod 64, then the length. -/
def padBytes (msg : List Nat) : List Nat :=
  msg ++ [128] ++ List.replicate ((119 - msg.length % 64) % 64) 0 ++
    lenBytes (8 * msg.length)

/-- The SHA-256 state after absorbing a whole byte message. -/
def sha256Words (msg : List Nat) : Hash8 :=
  let p := padBytes msg
  (List.range (p.length / 64)).foldl
    (fun h i => compressBlock h ((p.drop (64 * i)).take 64)) initH

/-- Big-endian bytes of one 32-bit word. -/
def wordBytes (w : Nat) : List Nat :=
  [(w >>> 24) % 256, (w >>> 16) % 256, (w >>> 8) % 256, w % 256]

/-- The 32 digest bytes of a final state. -/
def digestBytes (s : Hash8) : List Nat :=
  match s with
  | (a, b, c, d, e, f, g, h) =>
    wordBytes a ++ wordBytes b ++ wordBytes c ++ wordBytes d ++
      wordBytes e ++ wordBytes f ++ wordBytes g ++ wordBytes h

/-- Lowercase hexadecimal digit characters. -/
def hexDigit (n : Nat) : Char :=
  if n < 10 then Char.ofNat (48 + n) else Char.ofNat (87 + n)

/-- Lowercase hex rendering of a byte list. -/
def bytesToHexChars (bs : List Nat) : List Char :=
  bs.foldr (fun b acc => hexDigit (b / 16 % 16) :: hexDigit (b % 16) :: acc) []

/-- UTF-8 encoding of one character. -/
def utf8EncodeCh (c : Char) : List Nat :=
  let n := c.toNat
  if n < 128 then [n]
  else if n < 2048 then [192 ||| (n >>> 6), 128 ||| (n &&& 63)]
  else if n < 65536 then
    [224 ||| (n >>> 12), 128 ||| ((n >>> 6) &&& 63), 128 ||| (n &&& 63)]
  else
    [240 ||| (n >>> 18), 128 ||| ((n >>> 12) &&& 63),
     128 ||| ((n >>> 6) &&& 63), 128 ||| (n &&& 63)]

/-- The UTF-8 byte view of a string, as Node hashing consumes it. -/
def strBytes (s : String) : List Nat :=
  s.data.foldr (fun c acc => utf8EncodeCh c ++ acc) []

/-- Embedding of `sha256` from hashUtils: the lowercase hex SHA-256 digest
of the UTF-8 bytes of the input string. -/
def sha256 (input : String) : String :=
  String.mk (bytesToHexChars (digestBytes (sha256Words (strBytes input))))

/-! ### String helpers mirroring the JavaScript primitives used -/

/-- Embedding of `s.slice(0, n)`. -/
def strTake (n : Nat) (s : String) : String := String.mk (s.data.take n)

/-- Value of one hexadecimal digit character, as `parseInt(_, 16)` reads it. -/
def hexVal (c : Char) : Nat :=
  let n := c.toNat
  if 48 ≤ n ∧ n ≤ 57 then n - 48
  else if 97 ≤ n ∧ n ≤ 102 then n - 87
  else if 65 ≤ n ∧ n ≤ 70 then n - 55
  else 0

/-- Embedding of `parseInt(s, 16)` on the all-hex-digit strings the engine
feeds it (slices of a hex digest). -/
def parseHexNat (s : String) : Nat :=
  s.data.foldl (fun a c => a * 16 + hexVal c) 0

/-- Embedding of `s.toLowerCase()` (character-wise ASCII lowering, which
agrees with JavaScript on the hex-digest strings compared here). -/
def jsToLower (s : String) : String := String.mk (s.data.map Char.toLower)

/-- Embedding of `verifyServerSeedHash` from hashUtils: hash the seed and
compare with the claimed hash, case-insensitively. -/
def verifyServerSeedHash (serverSeed serverSeedHash : String) : Bool :=
  jsToLower (sha256 serverSeed) == jsToLower serverSeedHash

/-! ### The outcome engine (provablyFair.ts) over exact rationals -/

/-- ECMAScript `Math.round`: nearest integer, ties towards positive
infinity. -/
def jsRound (q : ℚ) : ℤ := ⌊q + 1 / 2⌋

/-- The final `Math.round(v * 100) / 100` normalisation both derivations
apply. -/
def round2 (q : ℚ) : ℚ := (jsRound (q * 100) : ℚ) / 100

/-- Embedding of `computeHashInput`: `server_seed + ":" + client_seed +
":" + nonce` with the nonce in decimal. -/
def computeHashInput (serverSeed clientSeed : String) (nonce : Nat) : String :=
  serverSeed ++ ":" ++ clientSeed ++ ":" ++ Nat.repr nonce

/-- Embedding of the `VerificationResult` record. -/
@[ext]
structure VerificationResult where
  computedResult : ℚ
  computationHex : String
  serverSeedHash : String
deriving Repr

/-- Embedding of `verifyDice`: parse the first 8 hex characters of the
digest, take the value modulo 10000 over 100, and round to 2 decimals. -/
def verifyDice (serverSeed clientSeed : String) (nonce : Nat) :
    VerificationResult :=
  let hash := sha256 (computeHashInput serverSeed clientSeed nonce)
  let x := parseHexNat (strTake 8 hash)
  let result : ℚ := (x % 10000 : Nat) / 100
  { computedResult := round2 result
    computationHex := hash
    serverSeedHash := sha256 serverSeed }

/-- Embedding of `verifyCrash`: parse the first 13 hex characters, form
`r = x / 2 ^ 52`, clamp by `1 - 1e-12`, floor the inverse mapping at two
decimals, cap by `maxMult`, and round to 2 decimals. -/
def verifyCrash (serverSeed clientSeed : String) (nonce : Nat)
    (maxMult : ℚ) : VerificationResult :=
  let hash := sha256 (computeHashInput serverSeed clientSeed nonce)
  let x := parseHexNat (strTake 13 hash)
  let r : ℚ := min ((x : ℚ) / 4503599627370496) (1 - 1 / 1000000000000)
  let mult : ℚ := min ((⌊1 / (1 - r) * 100⌋ : ℚ) / 100) maxMult
  { computedResult := round2 mult
    computationHex := hash
    serverSeedHash := sha256 serverSeed }

/-- The closed game-type variant set. -/
inductive Game where
  | dice : Game
  | crash : Game
deriving DecidableEq

/-- The record `verifyGame` returns. -/
structure GameVerification where
  result : VerificationResult
  hashVerified : Bool
  hashMismatch : Bool

/-- Embedding of `verifyGame`.  The claimed server-seed hash is a
`string | undefined` in the source; the presence test `if (serverSeedHash)`
is JS truthiness, so `none` and `some ""` both leave the flags at their
initial `false`. -/
def verifyGame (game : Game) (serverSeed : String)
    (serverSeedHash : Option String) (clientSeed : String) (nonce : Nat)
    (maxMult : ℚ) : GameVerification :=
  let flags : Bool × Bool :=
    match serverSeedHash with
    | none => (false, false)
    | some h =>
      if h == "" then (false, false)
      else
        let v := verifyServerSeedHash serverSeed h
        (v, !v)
  let result :=
    match game with
    | Game.dice => verifyDice serverSeed clientSeed nonce
    | Game.crash => verifyCrash serverSeed clientSeed nonce maxMult
  { result := result, hashVerified := flags.1, hashMismatch := flags.2 }

/-- Embedding of `Number.EPSILON`, the binary64 machine epsilon. -/
def numberEpsilon : ℚ := 1 / 4503599627370496

/-- Embedding of `compareResults`: strict mode compares against
`Number.EPSILON * 10`, tolerant mode against `0.01`. -/
def compareResults (computed expected : ℚ) (strict : Bool) : Bool :=
  if strict then decide (|computed - expected| < numberEpsilon * 10)
  else decide (|computed - expected| < 1 / 100)

/-- The verdict values of the HTTP layer. -/
inductive Verdict where
  | PASS : Verdict
  | FAIL : Verdict
deriving DecidableEq

/-- Embedding of the verdict computation in `postVerify` (verify.ts):
start from PASS, turn to FAIL on a hash mismatch, and turn to FAIL when an
expected result was supplied and the comparison rejects it. -/
def postVerifyVerdict (game : Game) (serverSeed : String)
    (serverSeedHash : Option String) (clientSeed : String) (nonce : Nat)
    (maxMult : ℚ) (expectedResult : Option ℚ) (expectStrict : Bool) :
    Verdict :=
  let v := verifyGame game serverSeed serverSeedHash clientSeed nonce maxMult
  if v.hashMismatch then Verdict.FAIL
  else
    match expectedResult with
    | some e =>
      if compareResults v.result.computedResult e expectStrict then
        Verdict.PASS
      else Verdict.FAIL
    | none => Verdict.PASS

/-! ### General lemmas about the embedded primitives -/

/-- Rounding at two decimals is the identity on integer hundredths. -/
theorem round2_intCast_div (k : ℤ) : round2 ((k : ℚ) / 100) = (k : ℚ) / 100 := by
  unfold round2 jsRound
  rw [div_mul_cancel₀ _ (by norm_num : (100 : ℚ) ≠ 0), Int.floor_int_add]
  norm_num

/-- Hex rendering of a cons. -/
theorem bytesToHexChars_cons (b : Nat) (t : List Nat) :
    bytesToHexChars (b :: t) =
      hexDigit (b / 16 % 16) :: hexDigit (b % 16) :: bytesToHexChars t := rfl

/-- Hex rendering doubles the length. -/
theorem bytesToHexChars_length (bs : List Nat) :
    (bytesToHexChars bs).length = 2 * bs.length := by
  induction bs with
  | nil => rfl
  | cons b t ih => rw [bytesToHexChars_cons]; simp [ih]; omega

/-- A digest always has 32 bytes. -/
theorem digestBytes_length (s : Hash8) : (digestBytes s).length = 32 := by
  obtain ⟨a, b, c, d, e, f, g, h⟩ := s
  simp [digestBytes, wordBytes]

/-- A hex digest string always has 64 characters. -/
theorem sha256_data_length (s : String) : (sha256 s).data.length = 64 := by
  show (bytesToHexChars (digestBytes (sha256Words (strBytes s)))).length = 64
  rw [bytesToHexChars_length, digestBytes_length]

/-- Lowercasing fixes every hex digit character the renderer emits. -/
theorem toLower_hexDigit (k : Nat) :
    Char.toLower (hexDigit (k % 16)) = hexDigit (k % 16) := by
  have hlt : k % 16 < 16 := Nat.mod_lt _ (by norm_num)
  have hall : ∀ j < 16, Char.toLower (hexDigit j) = hexDigit j := by decide
  exact hall _ hlt

/-- Lowercasing fixes a rendered hex string character-wise. -/
theorem map_toLower_bytesToHexChars (bs : List Nat) :
    (bytesToHexChars bs).map Char.toLower = bytesToHexChars bs := by
  induction bs with
  | nil => rfl
  | cons b t ih =>
    rw [bytesToHexChars_cons, List.map_cons, List.map_cons, ih,
      toLower_hexDigit, toLower_hexDigit]

/-- The digest is already lowercase: `toLowerCase` fixes it. -/
theorem jsToLower_sha256 (s : String) : jsToLower (sha256 s) = sha256 s :=
  congrArg String.mk (map_toLower_bytesToHexChars _)

/-- The dice result before rounding is an integer number of hundredths, so
the rounding step returns it unchanged. -/
theorem verifyDice_computedResult (serverSeed clientSeed : String)
    (nonce : Nat) :
    (verifyDice serverSeed clientSeed nonce).computedResult =
      ((parseHexNat (strTake 8
          (sha256 (computeHashInput serverSeed clientSeed nonce))) % 10000 :
        ℕ) : ℚ) / 100 := by
  simp only [verifyDice]
  have h := round2_intCast_div
    ((parseHexNat (strTake 8
        (sha256 (computeHashInput serverSeed clientSeed nonce))) % 10000 :
      ℕ) : ℤ)
  push_cast at h
  exact h

/-- The concrete 8-hex-character prefix value for the dice test vector. -/
theorem parseHex8_vector :
    parseHexNat (strTake 8
        (sha256 ("seed123" ++ ":" ++ "client456" ++ ":" ++ Nat.repr 1))) =
      4233650174 := by decide

/-- C1: for every server seed, client seed and positive nonce, the dice
derivation hashes `server_seed + ":" + client_seed + ":" + nonce` with
SHA-256, parses the first 8 hex characters of the digest in base 16 as
`x`, and returns `(x mod 10000) / 100` (already exact at two decimal
places, so the final two-decimal rounding leaves it unchanged) together
with the full digest. -/
theorem verifyDice_spec (serverSeed clientSeed : String) (nonce : Nat)
    (hpos : 1 ≤ nonce) :
    verifyDice serverSeed clientSeed nonce =
      { computedResult :=
          ((parseHexNat (strTake 8
              (sha256 (serverSeed ++ ":" ++ clientSeed ++ ":" ++
                Nat.repr nonce))) % 10000 : ℕ) : ℚ) / 100
        computationHex :=
          sha256 (serverSeed ++ ":" ++ clientSeed ++ ":" ++ Nat.repr nonce)
        serverSeedHash := sha256 serverSeed } := by
  have h := verifyDice_computedResult serverSeed clientSeed nonce
  simp only [computeHashInput] at h
  exact VerificationResult.ext h rfl rfl

/-- Witness for C1 at the spec test vector `("seed123", "client456", 1)`:
the computed dice result is 1.74. -/
theorem verifyDice_spec_witness :
    (verifyDice "seed123" "client456" 1).computedResult = 1.74 := by
  rw [verifyDice_spec "seed123" "client456" 1 (by norm_num)]
  simp only [parseHex8_vector]
  norm_num

/-- C8: the dice result always lies in the interval [0.00, 99.99]. -/
theorem verifyDice_range (serverSeed clientSeed : String) (nonce : Nat)
    (hpos : 1 ≤ nonce) :
    0 ≤ (verifyDice serverSeed clientSeed nonce).computedResult ∧
      (verifyDice serverSeed clientSeed nonce).computedResult ≤ 99.99 := by
  rw [verifyDice_computedResult]
  constructor
  · positivity
  · rw [div_le_iff₀ (by norm_num : (0 : ℚ) < 100)]
    have h2 : parseHexNat (strTake 8
        (sha256 (computeHashInput serverSeed clientSeed nonce))) % 10000 <
        10000 := Nat.mod_lt _ (by norm_num)
    have h3 : ((parseHexNat (strTake 8
        (sha256 (computeHashInput serverSeed clientSeed nonce))) % 10000 :
        ℕ) : ℚ) ≤ 9999 := by exact_mod_cast Nat.lt_succ_iff.mp h2
    calc ((parseHexNat (strTake 8
        (sha256 (computeHashInput serverSeed clientSeed nonce))) % 10000 :
        ℕ) : ℚ) ≤ 9999 := h3
      _ ≤ 99.99 * 100 := by norm_num

/-- Witness for C8 at `("seed123", "client456", 1)`. -/
theorem verifyDice_range_witness :
    0 ≤ (verifyDice "seed123" "client456" 1).computedResult ∧
      (verifyDice "seed123" "client456" 1).computedResult ≤ 99.99 :=
  verifyDice_range "seed123" "client456" 1 (by norm_num)

/-- The crash result, written out as the clamped inverse mapping. -/
theorem verifyCrash_computedResult (serverSeed clientSeed : String)
    (nonce : Nat) (maxMult : ℚ) :
    (verifyCrash serverSeed clientSeed nonce maxMult).computedResult =
      round2 (min
        ((⌊1 / (1 - min
            ((parseHexNat (strTake 13
                (sha256 (computeHashInput serverSeed clientSeed nonce))) : ℚ)
              / 4503599627370496) (1 - 1 / 1000000000000)) * 100⌋ : ℚ) / 100)
        maxMult) := rfl

/-- The concrete 13-hex-character prefix value for the crash test vector. -/
theorem parseHex13_vector :
    parseHexNat (strTake 13
        (sha256 ("test" ++ ":" ++ "test" ++ ":" ++ Nat.repr 1))) =
      2880235030351993 := by decide

/-- C2: for every server seed, client seed, positive nonce and cap, the
crash derivation parses the first 13 hex characters of the digest as `x`,
forms `r = x / 2 ^ 52`, clamps it by `1 - 1e-12`, floors the inverse
mapping `1 / (1 - r) * 100` down to hundredths, caps the multiplier at
`max_multiplier`, and returns that value rounded to two decimals. -/
theorem verifyCrash_spec (serverSeed clientSeed : String) (nonce : Nat)
    (maxMult : ℚ) (hpos : 1 ≤ nonce) :
    verifyCrash serverSeed clientSeed nonce maxMult =
      { computedResult :=
          round2 (min
            ((⌊1 / (1 - min
                ((parseHexNat (strTake 13
                    (sha256 (serverSeed ++ ":" ++ clientSeed ++ ":" ++
                      Nat.repr nonce))) : ℚ) / 2 ^ 52)
                (1 - 1 / 10 ^ 12)) * 100⌋ : ℚ) / 100) maxMult)
        computationHex :=
          sha256 (serverSeed ++ ":" ++ clientSeed ++ ":" ++ Nat.repr nonce)
        serverSeedHash := sha256 serverSeed } := by
  refine VerificationResult.ext ?_ rfl rfl
  have h := verifyCrash_computedResult serverSeed clientSeed nonce maxMult
  simp only [computeHashInput] at h
  rw [h]
  norm_num

/-- Witness for C2 at the spec test vector `("test", "test", 1, 10000)`:
the computed crash multiplier is 2.77. -/
theorem verifyCrash_spec_witness :
    (verifyCrash "test" "test" 1 10000).computedResult = 2.77 := by
  rw [verifyCrash_spec "test" "test" 1 10000 (by norm_num)]
  simp only [parseHex13_vector]
  norm_num [min_def, round2, jsRound]

/-- Counterexample to C5 as stated: the cap is applied with `min` and the
capped value is then rounded, so a cap below 1 drags the result below
1.00, and a cap with more than two decimals can be exceeded by the final
rounding.  At `("test", "test", 1)` the uncapped multiplier is 2.77; with
`max_multiplier = 0.5` the result is 0.5 < 1.00, and with
`max_multiplier = 1.006` the result is 1.01 > 1.006. -/
theorem verifyCrash_range_cex :
    (verifyCrash "test" "test" 1 (1 / 2)).computedResult < 1 ∧
      1006 / 1000 < (verifyCrash "test" "test" 1 (1006 / 1000)).computedResult := by
  constructor <;>
  · rw [verifyCrash_computedResult]
    simp only [computeHashInput, parseHex13_vector]
    norm_num [min_def, round2, jsRound]

/-- C5 as amended: for every positive nonce and every integer cap
`max_multiplier ≥ 1` (the spec configures the cap as an integer), the
crash result lies between 1.00 and `max_multiplier`. -/
theorem verifyCrash_range (serverSeed clientSeed : String) (nonce : Nat)
    (maxMult : ℕ) (hpos : 1 ≤ nonce) (hcap : 1 ≤ maxMult) :
    1 ≤ (verifyCrash serverSeed clientSeed nonce (maxMult : ℚ)).computedResult ∧
      (verifyCrash serverSeed clientSeed nonce (maxMult : ℚ)).computedResult ≤
        (maxMult : ℚ) := by
  rw [verifyCrash_computedResult]
  set x : ℕ := parseHexNat (strTake 13
    (sha256 (computeHashInput serverSeed clientSeed nonce))) with hxdef
  set r : ℚ := min ((x : ℚ) / 4503599627370496) (1 - 1 / 1000000000000)
    with hrdef
  have hr0 : 0 ≤ r := le_min (by positivity) (by norm_num)
  have hr1 : r ≤ 1 - 1 / 1000000000000 := min_le_right _ _
  have h1r : 0 < 1 - r := by linarith
  have h1r1 : 1 - r ≤ 1 := by linarith
  have hinv : 1 ≤ 1 / (1 - r) := one_le_one_div h1r h1r1
  have h100 : (100 : ℚ) ≤ 1 / (1 - r) * 100 := by linarith
  have hfl : (100 : ℤ) ≤ ⌊1 / (1 - r) * 100⌋ := Int.le_floor.mpr (by
    exact_mod_cast h100)
  set f : ℚ := (⌊1 / (1 - r) * 100⌋ : ℚ) / 100 with hfdef
  have hf1 : 1 ≤ f := by
    rw [hfdef, le_div_iff₀ (by norm_num : (0 : ℚ) < 100)]
    calc (1 : ℚ) * 100 = ((100 : ℤ) : ℚ) := by norm_num
      _ ≤ (⌊1 / (1 - r) * 100⌋ : ℚ) := by exact_mod_cast hfl
  have hcapQ : (1 : ℚ) ≤ (maxMult : ℚ) := by exact_mod_cast hcap
  have hm1 : 1 ≤ min f (maxMult : ℚ) := le_min hf1 hcapQ
  have hm2 : min f (maxMult : ℚ) ≤ (maxMult : ℚ) := min_le_right _ _
  unfold round2 jsRound
  constructor
  · rw [le_div_iff₀ (by norm_num : (0 : ℚ) < 100)]
    have hlo : (100 : ℤ) ≤ ⌊min f (maxMult : ℚ) * 100 + 1 / 2⌋ :=
      Int.le_floor.mpr (by push_cast; nlinarith)
    calc (1 : ℚ) * 100 = ((100 : ℤ) : ℚ) := by norm_num
      _ ≤ _ := by exact_mod_cast hlo
  · rw [div_le_iff₀ (by norm_num : (0 : ℚ) < 100)]
    have hhi : ⌊min f (maxMult : ℚ) * 100 + 1 / 2⌋ ≤ (maxMult : ℤ) * 100 := by
      rw [Int.floor_le_iff]
      push_cast
      nlinarith
    calc (⌊min f (maxMult : ℚ) * 100 + 1 / 2⌋ : ℚ) ≤
        (((maxMult : ℤ) * 100 : ℤ) : ℚ) := by exact_mod_cast hhi
      _ = (maxMult : ℚ) * 100 := by push_cast; ring

/-- Witness for the amended C5 at `("test", "test", 1)` with the default
cap 10000. -/
theorem verifyCrash_range_witness :
    1 ≤ (verifyCrash "test" "test" 1 ((10000 : ℕ) : ℚ)).computedResult ∧
      (verifyCrash "test" "test" 1 ((10000 : ℕ) : ℚ)).computedResult ≤
        ((10000 : ℕ) : ℚ) :=
  verifyCrash_range "test" "test" 1 10000 (by norm_num) (by norm_num)

/-- Counterexample to C3 as stated: the claimed example
`compare(42.37, 42.38, strict = false) = true` is wrong.  The difference
of the two values is exactly 0.01, which is not strictly below the 0.01
tolerance, so the code returns false.  (Evaluating the same call in
binary64 gives the difference 0.010000000000005116, which fails the
strict inequality as well.) -/
theorem compare_tolerant_cex : compareResults 42.37 42.38 false = false := by
  have h : ¬ (|(42.37 : ℚ) - 42.38| < 1 / 100) := by
    rw [show (42.37 : ℚ) - 42.38 = -(1 / 100) by norm_num, abs_neg,
      abs_of_nonneg (by norm_num)]
    exact lt_irrefl _
  rw [show compareResults 42.37 42.38 false =
    decide (|(42.37 : ℚ) - 42.38| < 1 / 100) from rfl, decide_eq_false h]

/-- C3 as amended: tolerant mode returns true iff the absolute difference
is strictly below 0.01; in particular both `compare(42.37, 42.38)` and
`compare(42.37, 42.39)` return false in tolerant mode, the first because
its difference equals the tolerance instead of lying below it. -/
theorem compare_tolerant_amended :
    (∀ computed expected : ℚ,
        compareResults computed expected false = true ↔
          |computed - expected| < 0.01) ∧
      compareResults 42.37 42.38 false = false ∧
      compareResults 42.37 42.39 false = false := by
  have hiff : ∀ computed expected : ℚ,
      compareResults computed expected false = true ↔
        |computed - expected| < 0.01 := by
    intro computed expected
    rw [show compareResults computed expected false =
      decide (|computed - expected| < 1 / 100) from rfl, decide_eq_true_eq]
    norm_num
  refine ⟨hiff, ?_, ?_⟩ <;>
  · rw [Bool.eq_false_iff, ne_eq, hiff]
    norm_num [abs_lt]

/-- C6: strict mode returns true iff the absolute difference is strictly
below ten times the binary64 machine epsilon `2 ^ (-52)` (the value of
`Number.EPSILON`), and in particular `compare(42.37, 42.37, strict)` is
true. -/
theorem compare_strict_spec :
    (∀ computed expected : ℚ,
        compareResults computed expected true = true ↔
          |computed - expected| < 10 / 2 ^ 52) ∧
      compareResults 42.37 42.37 true = true := by
  have hiff : ∀ computed expected : ℚ,
      compareResults computed expected true = true ↔
        |computed - expected| < 10 / 2 ^ 52 := by
    intro computed expected
    rw [show compareResults computed expected true =
      decide (|computed - expected| < numberEpsilon * 10) from rfl,
      decide_eq_true_eq]
    norm_num [numberEpsilon]
  refine ⟨hiff, ?_⟩
  rw [hiff]
  norm_num

/-- C7: hashing a seed always passes its own verification; verification
succeeds exactly when the claimed hash equals the lowercase digest up to
letter case; and the literal claimed hash "wrong" is rejected for every
seed (a digest has 64 characters, "wrong" has 5). -/
theorem verifySeedHash_spec :
    (∀ seed : String, verifyServerSeedHash seed (sha256 seed) = true) ∧
      (∀ seed claimed : String,
        verifyServerSeedHash seed claimed = true ↔
          jsToLower claimed = sha256 seed) ∧
      (∀ seed : String, verifyServerSeedHash seed "wrong" = false) := by
  have hiff : ∀ seed claimed : String,
      verifyServerSeedHash seed claimed = true ↔
        jsToLower claimed = sha256 seed := by
    intro seed claimed
    rw [verifyServerSeedHash, beq_iff_eq, jsToLower_sha256, eq_comm]
  refine ⟨?_, hiff, ?_⟩
  · intro seed
    rw [hiff, jsToLower_sha256]
  · intro seed
    rw [Bool.eq_false_iff, ne_eq, hiff]
    intro h
    have hlen : (sha256 seed).data.length = 64 := sha256_data_length seed
    rw [← h] at hlen
    simp [jsToLower] at hlen

/-- Counterexample to C4 as stated: supplying the empty string as the
claimed hash is a supplied claim per the claim text, and
`verifySeedHash(seed, "")` is false, so the claim demands
`hashMismatch = true`; but the code tests JS truthiness, treats the empty
string like an omitted hash, and leaves `hashMismatch = false`. -/
theorem verify_flags_cex :
    (verifyGame Game.dice "abc" (some "") "client" 1 10000).hashMismatch ≠
      (! verifyServerSeedHash "abc" "") := by decide

/-- C4 as amended: if a nonempty claimed server-seed hash is supplied,
`hashVerified` is the seed-hash check and `hashMismatch` its negation; if
the hash is omitted (or empty, which the truthiness test conflates with
omission), both flags are false.  The verdict is FAIL exactly when
`hashMismatch` holds or an expected result was supplied and the
comparison rejects it. -/
theorem verify_flags_verdict :
    (∀ (game : Game) (serverSeed clientSeed : String) (nonce : Nat)
        (maxMult : ℚ) (claimed : String), claimed ≠ "" →
      (verifyGame game serverSeed (some claimed) clientSeed nonce
          maxMult).hashVerified = verifyServerSeedHash serverSeed claimed ∧
        (verifyGame game serverSeed (some claimed) clientSeed nonce
          maxMult).hashMismatch = !verifyServerSeedHash serverSeed claimed) ∧
      (∀ (game : Game) (serverSeed clientSeed : String) (nonce : Nat)
          (maxMult : ℚ),
        (verifyGame game serverSeed none clientSeed nonce
            maxMult).hashVerified = false ∧
          (verifyGame game serverSeed none clientSeed nonce
            maxMult).hashMismatch = false) ∧
      (∀ (game : Game) (serverSeed : String) (claimed : Option String)
          (clientSeed : String) (nonce : Nat) (maxMult : ℚ)
          (expectedResult : Option ℚ) (expectStrict : Bool),
        postVerifyVerdict game serverSeed claimed clientSeed nonce maxMult
            expectedResult expectStrict = Verdict.FAIL ↔
          (verifyGame game serverSeed claimed clientSeed nonce
              maxMult).hashMismatch = true ∨
            ∃ e, expectedResult = some e ∧
              compareResults (verifyGame game serverSeed claimed clientSeed
                nonce maxMult).result.computedResult e expectStrict =
                false) := by
  refine ⟨?_, ?_, ?_⟩
  · intro game serverSeed clientSeed nonce maxMult claimed hne
    have hbeq : (claimed == "") = false := by
      simpa [beq_iff_eq] using hne
    constructor <;> simp [verifyGame, hbeq]
  · intro game serverSeed clientSeed nonce maxMult
    constructor <;> rfl
  · intro game serverSeed claimed clientSeed nonce maxMult expectedResult
      expectStrict
    unfold postVerifyVerdict
    by_cases hm : (verifyGame game serverSeed claimed clientSeed nonce
        maxMult).hashMismatch
    · simp [hm]
    · simp only [hm, Bool.false_eq_true, if_false]
      cases expectedResult with
      | none => simp [hm]
      | some e =>
        by_cases hc : compareResults (verifyGame game serverSeed claimed
            clientSeed nonce maxMult).result.computedResult e expectStrict
        · simp [hc, hm]
        · simp [hc, hm]

/-- Witness for the amended C4: with server seed "test" and the nonempty
claimed hash "deadbeef" (which does not match), the flags report a
mismatch. -/
theorem verify_flags_verdict_witness :
    (verifyGame Game.dice "test" (some "deadbeef") "client" 1
      10000).hashMismatch = true := by
  have h := (verify_flags_verdict.1 Game.dice "test" "client" 1 10000
    "deadbeef" (by decide)).2
  rw [h]
  decide

/-- C9: the whole verification is a pure function of its inputs: two
invocations on identical inputs return identical records (same rounded
result, same digest, same server-seed hash, same flags). -/
theorem verifyGame_deterministic (game game' : Game)
    (serverSeed serverSeed' : String) (claimed claimed' : Option String)
    (clientSeed clientSeed' : String) (nonce nonce' : Nat)
    (maxMult maxMult' : ℚ) (hg : game = game') (hs : serverSeed = serverSeed')
    (hh : claimed = claimed') (hc : clientSeed = clientSeed')
    (hn : nonce = nonce') (hm : maxMult = maxMult') :
    verifyGame game serverSeed claimed clientSeed nonce maxMult =
      verifyGame game' serverSeed' claimed' clientSeed' nonce' maxMult' := by
  subst hg hs hh hc hn hm
  rfl

/-- Witness for C9 at concrete equal inputs. -/
theorem verifyGame_deterministic_witness :
    verifyGame Game.crash "s" (some "h") "c" 2 10000 =
      verifyGame Game.crash "s" (some "h") "c" 2 10000 :=
  verifyGame_deterministic Game.crash Game.crash "s" "s" (some "h")
    (some "h") "c" "c" 2 2 10000 10000 rfl rfl rfl rfl rfl rfl

/-- C10: supplying the empty string as the claimed server-seed hash is
treated exactly like omitting it: the presence check is JS truthiness, so
the record, the flags and the verdict agree with the omitted-hash call,
and with no expected result the verdict is PASS. -/
theorem verify_empty_hash_omitted (game : Game)
    (serverSeed clientSeed : String) (nonce : Nat) (maxMult : ℚ) :
    verifyGame game serverSeed (some "") clientSeed nonce maxMult =
        verifyGame game serverSeed none clientSeed nonce maxMult ∧
      (verifyGame game serverSeed (some "") clientSeed nonce
        maxMult).hashVerified = false ∧
      (verifyGame game serverSeed (some "") clientSeed nonce
        maxMult).hashMismatch = false ∧
      (∀ (expectedResult : Option ℚ) (expectStrict : Bool),
        postVerifyVerdict game serverSeed (some "") clientSeed nonce maxMult
            expectedResult expectStrict =
          postVerifyVerdict game serverSeed none clientSeed nonce maxMult
            expectedResult expectStrict) ∧
      (∀ expectStrict : Bool,
        postVerifyVerdict game serverSeed (some "") clientSeed nonce maxMult
          none expectStrict = Verdict.PASS) := by
  refine ⟨rfl, rfl, rfl, fun _ _ => rfl, fun _ => rfl⟩

end DoubleCheck
